import Mathlib

/-!
Shallow embedding of the event-dispatch manager and transport wrapper of the
`curious` library, covering `curious/core/event/manager.py` and
`curious/core/_ws_wrapper/curio_wrapper.py`.

Handlers, listeners and hooks are identified by natural numbers; their runtime
behaviour (what exception, if any, an invocation raises; what a predicate
returns) is supplied as explicit data, since the Python callables are opaque to
the dispatcher.
-/

set_option autoImplicit false

namespace Curious

/-- Python exceptions relevant to the embedded code.  `listenerExit` embeds the
library's `ListenerExit` (an `Exception` subclass), `typeError` and `keyError`
embed the builtins, and `other n` stands for any further user exception. -/
inductive PyExc where
  | listenerExit
  | typeError
  | keyError
  | other (n : Nat)
deriving DecidableEq, Repr

/-- Scalar Python values, used for event arguments and predicate results. -/
inductive Val where
  | vnone
  | vbool (b : Bool)
  | vint (n : Int)
  | vstr (s : String)
deriving DecidableEq, Repr

/-- Python truthiness of a `Val` (`bool(v)`). -/
def Val.truthy : Val → Bool
  | Val.vnone => false
  | Val.vbool b => b
  | Val.vint n => n != 0
  | Val.vstr s => s ≠ ""

/-- A value stored in the `wait_for` result cell: `manager.py` stores either
the Python `None` (line 186, the no-predicate branch) or the positional
argument tuple `args` (lines 195 and 206). -/
inductive PVal where
  | pnone
  | ptuple (args : List Val)
deriving DecidableEq, Repr

/-- An `outcome.Outcome`: either `outcome.Value` or `outcome.Error`. -/
inductive POutcome where
  | value (v : PVal)
  | error (e : PyExc)
deriving DecidableEq, Repr

/-- Python `len(v)` on a result-cell value: a tuple has a length, `None` has
none and `len(None)` raises `TypeError`. -/
def pyLen : PVal → Except PyExc Nat
  | PVal.pnone => Except.error PyExc.typeError
  | PVal.ptuple l => Except.ok l.length

/-- Modelled from the spec: the single-shot result cell (`Promise` in
`curious/util.py`, absent from `src/`).  §4.2: "settles the cell with either a
success value or a captured fault; only the first call has effect". -/
def promiseSet (p : Option POutcome) (o : POutcome) : Option POutcome :=
  match p with
  | Option.none => some o
  | some x => some x

/-- Modelled from the spec: `remove_from_multidict` (`curious/util.py`, absent
from `src/`).  §4.3: removal deregisters that specific `(key, item)` entry, and
"removal of a listener that is not present is a silent no-op (never an
error)".  The first matching entry is removed. -/
def remove_from_multidict : List (String × Nat) → String → Nat → List (String × Nat)
  | [], _, _ => []
  | p :: rest, k, v => if p = (k, v) then rest else p :: remove_from_multidict rest k v

/-- `MultiDict.getall(key, [])`: all values registered under `key`, in
insertion order. -/
def getall (l : List (String × Nat)) (key : String) : List Nat :=
  (l.filter (fun p => p.1 = key)).map Prod.snd

/-- The three registries owned by `EventManager` (`manager.py` lines 68-79):
the hook set, the permanent-listener multidict and the temporary-listener
multidict.  The Python `set` of hooks is modelled as a duplicate-free list. -/
structure EventManager where
  event_hooks : List Nat
  event_listeners : List (String × Nat)
  temporary_listeners : List (String × Nat)
deriving DecidableEq, Repr

/-- A manager with empty registries (`EventManager.__init__`). -/
def emptyManager : EventManager := ⟨[], [], []⟩

/-- `EventManager.add_event` (lines 83-100) for an explicit `name`: rejects a
non-coroutine function with `TypeError`, otherwise adds to the
permanent-listener multidict. -/
def add_event (st : EventManager) (name : String) (func : Nat) (isCoroFn : Bool) :
    Except PyExc EventManager :=
  if isCoroFn then
    Except.ok { st with event_listeners := st.event_listeners ++ [(name, func)] }
  else
    Except.error PyExc.typeError

/-- `EventManager.remove_event` (lines 102-109): removes from the
permanent-listener multidict. -/
def remove_event (st : EventManager) (name : String) (func : Nat) : EventManager :=
  { st with event_listeners := remove_from_multidict st.event_listeners name func }

/-- `EventManager.add_temporary_listener` (lines 112-122): adds to the
temporary-listener multidict. -/
def add_temporary_listener (st : EventManager) (name : String) (listener : Nat) :
    EventManager :=
  { st with temporary_listeners := st.temporary_listeners ++ [(name, listener)] }

/-- `EventManager.remove_listener_early` (lines 124-131).  Note that the
source removes from `self.event_listeners` (the permanent registry), not from
`self.temporary_listeners`. -/
def remove_listener_early (st : EventManager) (name : String) (listener : Nat) :
    EventManager :=
  { st with event_listeners := remove_from_multidict st.event_listeners name listener }

/-- `EventManager.add_event_hook` (lines 133-140): `set.add`. -/
def add_event_hook (st : EventManager) (listener : Nat) : EventManager :=
  if listener ∈ st.event_hooks then st
  else { st with event_hooks := st.event_hooks ++ [listener] }

/-- `EventManager.remove_event_hook` (lines 142-146): Python `set.remove`,
which raises `KeyError` when the element is absent. -/
def remove_event_hook (st : EventManager) (listener : Nat) : Except PyExc EventManager :=
  if listener ∈ st.event_hooks then
    Except.ok { st with event_hooks := st.event_hooks.erase listener }
  else
    Except.error PyExc.keyError

/-- Wrapper invocation results.  A spawned handler either returns normally
(`Option.none`) or raises an exception (`some e`); the Python callables
themselves are opaque, so the raised exception is supplied as data. -/
def raisedOf (exc : Option PyExc) : Bool := exc.isSome

/-- `EventManager._safety_wrapper` (lines 149-156): awaits the handler; any
`Exception` is caught and logged.  Result: the manager state after the wrapper
(the wrapper touches no registry), the exception propagated out of the wrapper
(always none: `except Exception` swallows it), and whether a fault was
logged. -/
def safety_wrapper (st : EventManager) (exc : Option PyExc) :
    EventManager × Option PyExc × Bool :=
  match exc with
  | Option.none => (st, Option.none, false)
  | some _ => (st, Option.none, true)

/-- `EventManager._listener_wrapper` (lines 158-170): awaits the listener;
`except ListenerExit` removes the listener from the temporary-listener
multidict; `except Exception` logs the fault and also removes it.  Result:
manager state after the wrapper and whether a fault was logged. -/
def listener_wrapper (st : EventManager) (key : String) (func : Nat)
    (exc : Option PyExc) : EventManager × Bool :=
  match exc with
  | Option.none => (st, false)
  | some PyExc.listenerExit =>
      ({ st with temporary_listeners :=
          remove_from_multidict st.temporary_listeners key func }, false)
  | some _ =>
      ({ st with temporary_listeners :=
          remove_from_multidict st.temporary_listeners key func }, true)

/-- Modelled from the spec: the dispatch context (`EventContext` in
`curious/core/event/context.py`, absent from `src/`).  §3: "Dispatch Context:
(connection_id, event_name)". -/
structure EventContext where
  shard_id : Nat
  event_name : String
deriving DecidableEq, Repr

/-- What one `fire_event` call spawns (`manager.py` lines 270-283): one task
per hook, one `_safety_wrapper` task per permanent handler registered under
the event name, one `_listener_wrapper` task per temporary listener registered
under it; every spawned task is applied to `args`, and `ctx` is the dispatch
context computed for this firing. -/
structure FireResult where
  ctx : EventContext
  args : List Val
  spawnedHooks : List Nat
  spawnedHandlers : List Nat
  spawnedListeners : List Nat
deriving DecidableEq, Repr

/-- `EventManager.fire_event` (lines 253-283).  `ctxArg` models the presence
of a `ctx` keyword argument, `gatewayShard` the `gateway` keyword argument
(reduced to `gateway.session.shard_id`).  With neither present,
`kwargs.pop("gateway")` raises `KeyError` before anything is spawned.  The
event name is clobbered into the context in both branches (line 266).  The
first component is the manager state after the call: `fire_event` itself
mutates no registry. -/
def fire_event (st : EventManager) (event_name : String) (args : List Val)
    (ctxArg : Option EventContext) (gatewayShard : Option Nat) :
    EventManager × Except PyExc FireResult :=
  match ctxArg with
  | some c =>
      let ctx := { c with event_name := event_name }
      (st, Except.ok ⟨ctx, args, st.event_hooks, getall st.event_listeners event_name,
        getall st.temporary_listeners event_name⟩)
  | Option.none =>
      match gatewayShard with
      | Option.none => (st, Except.error PyExc.keyError)
      | some sid =>
          (st, Except.ok ⟨⟨sid, event_name⟩, args, st.event_hooks,
            getall st.event_listeners event_name,
            getall st.temporary_listeners event_name⟩)

/-! ### The `wait_for` protocol (lines 172-221)

`wait_for` builds a fresh result cell, registers a closure `listener` as a
temporary listener, suspends on the cell, and finally unwraps the settled
outcome.  The closure's behaviour depends only on the predicate's behaviour on
the firing's arguments, embedded below as `PredBehavior`. -/

/-- Behaviour of a `wait_for` predicate on one argument tuple: it either
returns a value or raises an exception. -/
inductive PredBehavior where
  | ret (v : Val)
  | raise (e : PyExc)
deriving DecidableEq, Repr

/-- The body of the `listener` closure defined inside `wait_for`
(lines 183-207), acting on the result cell `p` for one invocation with
arguments `args`.  Returns the new cell contents and whether the body raised
`ListenerExit` (the only exception this body can raise):
* no predicate: `p.set(outcome.Value(None))` then `raise ListenerExit`;
* predicate raises `ListenerExit`: `p.set(outcome.Value(args))`, re-raise;
* predicate raises another exception `e`: `p.set(outcome.Error(e))`,
  `raise ListenerExit`;
* predicate returns `res`: if `res is True` (identity with the boolean
  `True`, not truthiness), `p.set(outcome.Value(args))` and
  `raise ListenerExit`; otherwise return normally. -/
def wait_for_listener (predicate : Option (List Val → PredBehavior))
    (p : Option POutcome) (args : List Val) : Option POutcome × Bool :=
  match predicate with
  | Option.none => (promiseSet p (POutcome.value PVal.pnone), true)
  | some pred =>
      match pred args with
      | PredBehavior.raise PyExc.listenerExit =>
          (promiseSet p (POutcome.value (PVal.ptuple args)), true)
      | PredBehavior.raise e =>
          (promiseSet p (POutcome.error e), true)
      | PredBehavior.ret v =>
          if v = Val.vbool true then
            (promiseSet p (POutcome.value (PVal.ptuple args)), true)
          else (p, false)

/-- The observable state of one pending `wait_for` call: the result cell's
contents, whether its temporary listener is still registered, and how many
times the predicate has been evaluated. -/
structure WaitState where
  promise : Option POutcome
  registered : Bool
  predCalls : Nat
deriving DecidableEq, Repr

/-- State right after `wait_for` registered its listener (line 209): fresh
cell, listener registered, predicate never evaluated. -/
def initWaitState : WaitState := ⟨Option.none, true, 0⟩

/-- Effect of one firing of the awaited event on a pending `wait_for` call:
if the listener is still registered, `fire_event` spawns it through
`_listener_wrapper` (lines 280-283), which runs `wait_for_listener` and, on
`ListenerExit`, deregisters the listener (lines 162-166); the predicate is
evaluated exactly when the listener runs and a predicate was supplied. -/
def wait_for_on_fire (predicate : Option (List Val → PredBehavior))
    (ws : WaitState) (args : List Val) : WaitState :=
  if ws.registered then
    let r := wait_for_listener predicate ws.promise args
    ⟨r.1, !r.2, ws.predCalls + (if predicate.isSome then 1 else 0)⟩
  else ws

/-- A pending `wait_for` call observed across a sequence of firings of its
event, starting from the freshly registered state. -/
def wait_for_run (predicate : Option (List Val → PredBehavior))
    (firings : List (List Val)) : WaitState :=
  firings.foldl (wait_for_on_fire predicate) initWaitState

/-- What `wait_for` returns to its caller: either `result[0]` when the settled
tuple has exactly one element, or the whole tuple. -/
inductive WaitReturn where
  | single (v : Val)
  | whole (l : List Val)
deriving DecidableEq, Repr

/-- The tail of `wait_for` (lines 211-221) once the result cell has settled
with `out`: `output.unwrap()` re-raises a stored fault; otherwise
`len(result)` is taken (raising `TypeError` when the stored value is `None`)
and a one-element tuple is unwrapped to its element. -/
def wait_for_resume (out : POutcome) : Except PyExc WaitReturn :=
  match out with
  | POutcome.error e => Except.error e
  | POutcome.value PVal.pnone => Except.error PyExc.typeError
  | POutcome.value (PVal.ptuple [a]) => Except.ok (WaitReturn.single a)
  | POutcome.value (PVal.ptuple l) => Except.ok (WaitReturn.whole l)

/-- The outcome delivered to the caller of `wait_for` given the observable
state of the call: `Option.none` while the cell is unset (the caller is still
suspended on `p.wait()`), otherwise the result of resuming. -/
def wait_for_caller_result (ws : WaitState) : Option (Except PyExc WaitReturn) :=
  ws.promise.map wait_for_resume

/-! ### The transport wrapper (`curio_wrapper.py`) -/

/-- A low-level event produced by the persistent websocket iteration: either
the periodic `Poll` marker or any other event (carrying an opaque frame
identifier). -/
inductive WsEvent where
  | poll
  | frame (n : Nat)
deriving DecidableEq, Repr

/-- State of the transport wrapper's queues: the outbound send queue (FIFO of
enqueued action identifiers), the inbound queue of forwarded frames, and the
actions executed so far in execution order. -/
structure WsState where
  sendQueue : List Nat
  inQueue : List Nat
  executed : List Nat
deriving DecidableEq, Repr

/-- `send_text`/`close` enqueue one outbound action (lines 78-98):
`self._send_queue.put(p)`. -/
def send_text (st : WsState) (m : Nat) : WsState :=
  { st with sendQueue := st.sendQueue ++ [m] }

/-- One iteration of the loop body in `websocket_handler` (lines 59-66): on a
`Poll` event, if the send queue is non-empty, pop exactly one action and
execute it; on any other event, put it on the inbound queue. -/
def handlerStep (st : WsState) (ev : WsEvent) : WsState :=
  match ev with
  | WsEvent.poll =>
      match st.sendQueue with
      | [] => st
      | a :: rest => { st with sendQueue := rest, executed := st.executed ++ [a] }
  | WsEvent.frame n => { st with inQueue := st.inQueue ++ [n] }

/-- `CurioWebsocketWrapper.websocket_handler`'s loop over a sequence of
low-level events. -/
def websocket_handler (st : WsState) (evs : List WsEvent) : WsState :=
  evs.foldl handlerStep st

/-! ### Helper lemmas -/

theorem remove_from_multidict_not_mem {l : List (String × Nat)} {k : String} {v : Nat}
    (h : (k, v) ∉ l) : remove_from_multidict l k v = l := by
  induction l with
  | nil => rfl
  | cons p rest ih =>
      simp only [List.mem_cons, not_or] at h
      simp only [remove_from_multidict]
      rw [if_neg (fun hp => h.1 hp.symm), ih h.2]

theorem not_mem_remove_of_count_one {l : List (String × Nat)} {k : String} {v : Nat}
    (h : l.count (k, v) = 1) : (k, v) ∉ remove_from_multidict l k v := by
  induction l with
  | nil => simp [remove_from_multidict]
  | cons p rest ih =>
      by_cases hp : p = (k, v)
      · subst hp
        rw [List.count_cons_self] at h
        have h0 : rest.count (k, v) = 0 := by omega
        simp only [remove_from_multidict, if_pos rfl]
        exact List.count_eq_zero.mp h0
      · have hne : (k, v) ≠ p := fun hkv => hp hkv.symm
        rw [List.count_cons_of_ne hne] at h
        simp only [remove_from_multidict, if_neg hp, List.mem_cons, not_or]
        exact ⟨hne, ih h⟩

theorem mem_getall {l : List (String × Nat)} {k : String} {x : Nat} :
    x ∈ getall l k ↔ (k, x) ∈ l := by
  unfold getall
  rw [List.mem_map]
  constructor
  · rintro ⟨⟨a, b⟩, hm, rfl⟩
    rw [List.mem_filter] at hm
    have ha : a = k := by simpa using hm.2
    subst ha
    exact hm.1
  · intro h
    exact ⟨(k, x), List.mem_filter.mpr ⟨h, by simp⟩, rfl⟩

theorem wait_for_foldl_unregistered (pred : Option (List Val → PredBehavior))
    (firings : List (List Val)) (ws : WaitState) (h : ws.registered = false) :
    firings.foldl (wait_for_on_fire pred) ws = ws := by
  induction firings with
  | nil => rfl
  | cons a t ih =>
      rw [List.foldl_cons]
      have hstep : wait_for_on_fire pred ws a = ws := by
        simp [wait_for_on_fire, h]
      rw [hstep, ih]

theorem wait_for_listener_raise {pred : List Val → PredBehavior}
    {p : Option POutcome} {args : List Val} {e : PyExc}
    (hne : e ≠ PyExc.listenerExit) (hp : pred args = PredBehavior.raise e) :
    wait_for_listener (some pred) p args = (promiseSet p (POutcome.error e), true) := by
  cases e with
  | listenerExit => exact absurd rfl hne
  | typeError => simp only [wait_for_listener, hp]
  | keyError => simp only [wait_for_listener, hp]
  | other n => simp only [wait_for_listener, hp]

/-! ### Claim theorems -/

/-- C1: the claim states that `wait_for` with no predicate, resolved by firing
the event, returns the unwrapped single argument (42 for args `(42,)`) or the
whole tuple (for args `(1, 2)`).  The code instead settles the result cell
with `outcome.Value(None)` (line 186), so after the firing the cell holds
`None`, the listener has deregistered itself, the predicate machinery was
never involved, and the resumption raises `TypeError` from `len(None)`
(line 219) instead of returning the arguments — for both a one-element and a
two-element argument tuple. -/
theorem claim_C1_no_predicate_settles_none_then_typeerror :
    wait_for_run Option.none [[Val.vint 42]]
      = ⟨some (POutcome.value PVal.pnone), false, 0⟩ ∧
    wait_for_caller_result (wait_for_run Option.none [[Val.vint 42]])
      = some (Except.error PyExc.typeError) ∧
    wait_for_caller_result (wait_for_run Option.none [[Val.vint 1, Val.vint 2]])
      = some (Except.error PyExc.typeError) :=
  ⟨rfl, rfl, rfl⟩

/-- C2: the claim states that when the suspension of `wait_for` fails, the
temporary listener registered under the event name is removed from the
temporary registry so that no registration leaks.  The cleanup path calls
`remove_listener_early` (line 213), but `remove_listener_early` (line 131)
removes from `self.event_listeners` — the permanent registry — not from
`self.temporary_listeners`.  Concretely: registering listener 7 under "X" as
`wait_for` does and then running the cleanup leaves the manager unchanged,
listener 7 is still in the temporary registry, and a subsequent
`fire_event("X")` still spawns it. -/
theorem claim_C2_cancel_cleanup_leaks_temporary_listener :
    remove_listener_early (add_temporary_listener emptyManager "X" 7) "X" 7
      = add_temporary_listener emptyManager "X" 7 ∧
    7 ∈ getall (remove_listener_early
          (add_temporary_listener emptyManager "X" 7) "X" 7).temporary_listeners "X" ∧
    (fire_event (remove_listener_early
          (add_temporary_listener emptyManager "X" 7) "X" 7) "X" []
          Option.none (some 0)).2
      = Except.ok ⟨⟨0, "X"⟩, [], [], [], [7]⟩ := by
  refine ⟨rfl, by decide, rfl⟩

/-- C3: firing an event spawns exactly the permanent handlers registered under
the event name (each exactly once, in registry order, applied to the firing's
arguments), the call leaves the registries unchanged, and each handler runs
inside `_safety_wrapper`, which swallows any fault (propagating no exception),
logs exactly the faulting runs, and touches no registry — so one faulting
handler affects neither the other spawned handlers nor future firings. -/
theorem claim_C3_permanent_handlers_spawned_once_and_isolated
    (st : EventManager) (name : String) (args : List Val) (sid : Nat) :
    (fire_event st name args Option.none (some sid)).1 = st ∧
    (fire_event st name args Option.none (some sid)).2 =
      Except.ok ⟨⟨sid, name⟩, args, st.event_hooks, getall st.event_listeners name,
        getall st.temporary_listeners name⟩ ∧
    ∀ exc : Option PyExc,
      (safety_wrapper st exc).1 = st ∧
      (safety_wrapper st exc).2.1 = Option.none ∧
      ((safety_wrapper st exc).2.2 = true ↔ exc.isSome = true) := by
  refine ⟨rfl, rfl, fun exc => ?_⟩
  cases exc <;> simp [safety_wrapper]

/-- C4: a temporary listener registered (once) under `E` whose invocation
raises `ListenerExit` — or any other exception — is removed from the
temporary registry by `_listener_wrapper` when the wrapper completes, and a
subsequent firing of `E` no longer spawns it; the fault is logged exactly when
the exception was not `ListenerExit`. -/
theorem claim_C4_temporary_listener_removed_after_exit_or_fault
    (st : EventManager) (E : String) (L : Nat) (e : PyExc)
    (hcount : st.temporary_listeners.count (E, L) = 1) :
    (listener_wrapper st E L (some e)).1.temporary_listeners
      = remove_from_multidict st.temporary_listeners E L ∧
    L ∉ getall (listener_wrapper st E L (some e)).1.temporary_listeners E ∧
    (∀ (args : List Val) (sid : Nat),
      (fire_event (listener_wrapper st E L (some e)).1 E args Option.none (some sid)).2
        = Except.ok ⟨⟨sid, E⟩, args, st.event_hooks, getall st.event_listeners E,
            getall (remove_from_multidict st.temporary_listeners E L) E⟩ ∧
      L ∉ getall (remove_from_multidict st.temporary_listeners E L) E) ∧
    ((listener_wrapper st E L (some e)).2 = true ↔ e ≠ PyExc.listenerExit) := by
  have hrm : (listener_wrapper st E L (some e)).1
      = { st with temporary_listeners := remove_from_multidict st.temporary_listeners E L } := by
    cases e <;> rfl
  have hnm : L ∉ getall (remove_from_multidict st.temporary_listeners E L) E := by
    rw [mem_getall]
    exact not_mem_remove_of_count_one hcount
  refine ⟨by rw [hrm], by rw [hrm]; exact hnm, fun args sid => ⟨by rw [hrm]; rfl, hnm⟩, ?_⟩
  cases e <;> simp [listener_wrapper]

/-- Closed witness for C4: a manager holding one temporary listener 5 under
"E"; after the wrapper handles a non-exit fault, listener 5 is gone from the
temporary registry and a new firing of "E" spawns no temporary listener. -/
theorem claim_C4_witness :
    (⟨[], [], [("E", 5)]⟩ : EventManager).temporary_listeners.count ("E", 5) = 1 ∧
    5 ∉ getall (listener_wrapper ⟨[], [], [("E", 5)]⟩ "E" 5
        (some (PyExc.other 0))).1.temporary_listeners "E" ∧
    ((listener_wrapper ⟨[], [], [("E", 5)]⟩ "E" 5 (some (PyExc.other 0))).2 = true
      ↔ PyExc.other 0 ≠ PyExc.listenerExit) := by
  have h := claim_C4_temporary_listener_removed_after_exit_or_fault
    ⟨[], [], [("E", 5)]⟩ "E" 5 (PyExc.other 0) (by decide)
  exact ⟨by decide, h.2.1, h.2.2.2⟩

/-- C5: when the predicate of a pending `wait_for` raises an exception `e`
other than `ListenerExit` on a firing's arguments, the fault is settled into
the result cell, the listener deregisters (via `ListenerExit` raised by the
closure, handled by `_listener_wrapper`), the predicate is never evaluated
again on any number of subsequent firings, and the caller of `wait_for`
observes the same fault `e` re-raised. -/
theorem claim_C5_predicate_fault_propagates_and_deregisters
    (pred : List Val → PredBehavior) (args : List Val) (e : PyExc)
    (more : List (List Val))
    (hne : e ≠ PyExc.listenerExit) (hp : pred args = PredBehavior.raise e) :
    wait_for_run (some pred) (args :: more)
      = ⟨some (POutcome.error e), false, 1⟩ ∧
    wait_for_caller_result (wait_for_run (some pred) (args :: more))
      = some (Except.error e) := by
  have hstep : wait_for_on_fire (some pred) initWaitState args
      = ⟨some (POutcome.error e), false, 1⟩ := by
    simp [wait_for_on_fire, initWaitState, wait_for_listener_raise hne hp, promiseSet]
  have hrun : wait_for_run (some pred) (args :: more)
      = ⟨some (POutcome.error e), false, 1⟩ := by
    unfold wait_for_run
    rw [List.foldl_cons, hstep, wait_for_foldl_unregistered]
    rfl
  exact ⟨hrun, by rw [hrun]; rfl⟩

/-- Closed witness for C5: a predicate that raises `KeyError` on the empty
argument tuple; after that firing and one further firing, the cell holds the
fault, the listener is deregistered, the predicate ran once, and the caller
receives `KeyError`. -/
theorem claim_C5_witness :
    wait_for_run (some (fun _ => PredBehavior.raise PyExc.keyError)) [[], [Val.vint 3]]
      = ⟨some (POutcome.error PyExc.keyError), false, 1⟩ ∧
    wait_for_caller_result (wait_for_run
        (some (fun _ => PredBehavior.raise PyExc.keyError)) [[], [Val.vint 3]])
      = some (Except.error PyExc.keyError) :=
  claim_C5_predicate_fault_propagates_and_deregisters
    (fun _ => PredBehavior.raise PyExc.keyError) [] PyExc.keyError [[Val.vint 3]]
    (by decide) rfl

/-- C6: the claim states that any truthy predicate result settles the result
cell and resolves the wait.  The code tests `res is True` (line 205), identity
with the boolean `True`, so the truthy integer 1 does not settle the cell: the
call stays suspended and the listener stays registered.  Returning the boolean
`True` itself does settle the cell with the argument tuple and deregisters the
listener. -/
theorem claim_C6_truthy_non_true_does_not_resolve :
    wait_for_run (some (fun _ => PredBehavior.ret (Val.vint 1))) [[Val.vint 7]]
      = ⟨Option.none, true, 1⟩ ∧
    (Val.vint 1).truthy = true ∧
    wait_for_run (some (fun _ => PredBehavior.ret (Val.vbool true))) [[Val.vint 7]]
      = ⟨some (POutcome.value (PVal.ptuple [Val.vint 7])), false, 1⟩ := by
  refine ⟨?_, ?_, ?_⟩ <;> decide

/-- C7: the transport's background loop pops at most one outbound action per
poll tick, in FIFO order: over any queue, `n` poll ticks execute exactly the
first `min n (queue length)` actions in queue order and leave the rest queued;
a poll tick on an empty queue executes nothing; enqueuing `a`, `b`, `c` places
them in FIFO order, and three poll ticks on queue `[a, b, c]` execute `a`,
then `b`, then `c`, one per tick. -/
theorem claim_C7_one_outbound_action_per_poll_tick_fifo :
    (∀ (q inq ex : List Nat) (n : Nat),
      websocket_handler ⟨q, inq, ex⟩ (List.replicate n WsEvent.poll)
        = ⟨q.drop n, inq, ex ++ q.take n⟩) ∧
    (∀ (inq ex : List Nat), handlerStep ⟨[], inq, ex⟩ WsEvent.poll = ⟨[], inq, ex⟩) ∧
    (∀ (st : WsState) (a b c : Nat),
      (send_text (send_text (send_text st a) b) c).sendQueue
        = st.sendQueue ++ [a, b, c]) ∧
    (∀ (a b c : Nat) (inq ex : List Nat),
      websocket_handler ⟨[a, b, c], inq, ex⟩ [WsEvent.poll]
        = ⟨[b, c], inq, ex ++ [a]⟩ ∧
      websocket_handler ⟨[a, b, c], inq, ex⟩ [WsEvent.poll, WsEvent.poll]
        = ⟨[c], inq, ex ++ [a, b]⟩ ∧
      websocket_handler ⟨[a, b, c], inq, ex⟩ [WsEvent.poll, WsEvent.poll, WsEvent.poll]
        = ⟨[], inq, ex ++ [a, b, c]⟩) := by
  have key : ∀ (n : Nat) (q inq ex : List Nat),
      websocket_handler ⟨q, inq, ex⟩ (List.replicate n WsEvent.poll)
        = ⟨q.drop n, inq, ex ++ q.take n⟩ := by
    intro n
    induction n with
    | zero => intro q inq ex; simp [websocket_handler]
    | succ m ih =>
        intro q inq ex
        rw [List.replicate_succ]
        cases q with
        | nil =>
            simp only [websocket_handler, List.foldl_cons] at ih ⊢
            simpa [handlerStep] using ih [] inq ex
        | cons a rest =>
            simp only [websocket_handler, List.foldl_cons] at ih ⊢
            rw [show handlerStep ⟨a :: rest, inq, ex⟩ WsEvent.poll
                = ⟨rest, inq, ex ++ [a]⟩ from rfl]
            rw [ih rest inq (ex ++ [a])]
            simp
  refine ⟨fun q inq ex n => key n q inq ex, fun inq ex => rfl,
    fun st a b c => by simp [send_text], fun a b c inq ex => ?_⟩
  refine ⟨?_, ?_, ?_⟩
  · have h := key 1 [a, b, c] inq ex
    simpa using h
  · have h := key 2 [a, b, c] inq ex
    simpa using h
  · have h := key 3 [a, b, c] inq ex
    simpa using h

/-- C9 counterexample: the claim states that every removal of an unregistered
entry — including a hook — is a silent no-op, but `remove_event_hook` uses
Python `set.remove`, which raises `KeyError` on an absent element: removing
hook 0 from a manager with no hooks raises `KeyError`. -/
theorem claim_C9_counterexample :
    remove_event_hook emptyManager 0 = Except.error PyExc.keyError := rfl

/-- C9 (amended): removing a permanent handler (`remove_event`) or running the
temporary-listener removal (`remove_listener_early`) on a `(name, function)`
pair absent from the multidict it operates on is a silent no-op leaving all
registries unchanged; removing a hook that is not registered raises `KeyError`
(the manager, being untouched, keeps all registries unchanged). -/
theorem claim_C9_unregistered_removals
    (st : EventManager) (name : String) (func h : Nat) :
    ((name, func) ∉ st.event_listeners → remove_event st name func = st) ∧
    ((name, func) ∉ st.event_listeners → remove_listener_early st name func = st) ∧
    (h ∉ st.event_hooks → remove_event_hook st h = Except.error PyExc.keyError) := by
  refine ⟨fun hm => ?_, fun hm => ?_, fun hh => ?_⟩
  · simp [remove_event, remove_from_multidict_not_mem hm]
  · simp [remove_listener_early, remove_from_multidict_not_mem hm]
  · simp [remove_event_hook, hh]

/-- Closed witness for the amended C9: on the empty manager, removing an
unregistered permanent handler or listener leaves the manager unchanged and
removing an unregistered hook raises `KeyError`. -/
theorem claim_C9_witness :
    remove_event emptyManager "a" 0 = emptyManager ∧
    remove_listener_early emptyManager "a" 0 = emptyManager ∧
    remove_event_hook emptyManager 1 = Except.error PyExc.keyError := by
  have h := claim_C9_unregistered_removals emptyManager "a" 0 1
  exact ⟨h.1 (by decide), h.2.1 (by decide), h.2.2 (by decide)⟩

/-- C10: firing an event whose keyword arguments contain neither `ctx` nor
`gateway` raises `KeyError` from `kwargs.pop("gateway")` before any hook,
permanent handler or temporary listener is spawned, and the call leaves the
manager's three registries unchanged. -/
theorem claim_C10_fire_event_without_ctx_or_gateway_keyerror
    (st : EventManager) (name : String) (args : List Val) :
    fire_event st name args Option.none Option.none = (st, Except.error PyExc.keyError) :=
  rfl

end Curious
